import Mathlib

/-
  Shallow embedding of the cluster discovery / tunnel / readiness / log
  multiplexing subsystem of the lissto CLI (pkg/k8s/discovery.go,
  pkg/k8s readiness and log files, cmd/logs.go), together with theorems
  checking the specification's claims against it.
-/

namespace Lissto

/- ### Go channel close semantics (used by the port-forward stop function)

  In Go, `close` on an open channel succeeds and `close` on an already
  closed channel panics with "close of closed channel".  The stop function
  returned by `startPortForward` is `func() { close(stopChan) }`, so its
  behaviour is exactly `closeChan` applied to the current state of
  `stopChan`. -/

inductive ChanState where
  | opened : ChanState
  | closed : ChanState
deriving DecidableEq, Repr

/-- Go semantics of `close(ch)`: ok on an open channel, panic (modelled as
`Except.error`) on a closed one. -/
def closeChan : ChanState → Except String ChanState
  | ChanState.opened => Except.ok ChanState.closed
  | ChanState.closed => Except.error "close of closed channel"

/-- Outcome of the `select` in `startPortForward` (discovery.go lines
232-245): the forwarder signalled readiness, the 10s timer fired, or the
caller's context was cancelled first. -/
inductive ForwardWait where
  | ready : ForwardWait
  | timeout : ForwardWait
  | ctxCancelled : ForwardWait
deriving DecidableEq, Repr

/-- Embedding of `startPortForward` (discovery.go lines 193-246), reduced to
its stop-channel protocol.  On readiness it returns the cleanup function
`func() { close(stopChan) }` (that is, `closeChan`) with `stopChan` still
open; on timeout or cancellation it closes `stopChan` itself and returns an
error.  The second component is the state of `stopChan` when the call
returns. -/
def startPortForward (wait : ForwardWait) :
    Except String (ChanState → Except String ChanState) × ChanState :=
  match wait with
  | ForwardWait.ready => (Except.ok closeChan, ChanState.opened)
  | ForwardWait.timeout =>
      (Except.error "timeout waiting for port-forward to be ready", ChanState.closed)
  | ForwardWait.ctxCancelled =>
      (Except.error "context cancelled while waiting for port-forward", ChanState.closed)

/-- The property the spec asserts of a release function: starting from the
open stop channel, calling it twice produces no error and no panic on
either call. -/
def releaseTwiceSafe (stop : ChanState → Except String ChanState) : Prop :=
  ∃ s1, stop ChanState.opened = Except.ok s1 ∧ (stop s1).isOk = true

/- ### Local port selection (discovery.go lines 141-151, 248-268) -/

/-- Embedding of `findAvailablePort` (discovery.go lines 259-268): probe the
99 ports `startPort+1 .. startPort+99` (the loop runs while
`port < startPort+100`) against the availability oracle and return the
first free one, or 0 when all are busy.  `isAvail` stands for
`isPortAvailable`, whose outcome depends on the host's socket state. -/
def findAvailablePort (isAvail : Nat → Bool) (startPort : Nat) : Nat :=
  match ((List.range 99).map (fun i => startPort + 1 + i)).find? isAvail with
  | some p => p
  | none => 0

/-- Embedding of the local-port selection step of `SetupPortForward`
(discovery.go lines 141-151): keep the preferred port when it is free,
otherwise take `findAvailablePort`, failing when that returns 0. -/
def resolveLocalPort (isAvail : Nat → Bool) (localPort : Nat) : Except String Nat :=
  if isAvail localPort then Except.ok localPort
  else if findAvailablePort isAvail localPort = 0 then
    Except.error ("port " ++ toString localPort ++
      " is already in use and no alternative ports available")
  else Except.ok (findAvailablePort isAvail localPort)

/- ### Endpoint discovery (discovery.go lines 18-86) -/

/-- Shape of the JSON payload decoded from `/health?info=true`
(discovery.go lines 57-60). -/
structure ApiInfo where
  public_url : String
  api_id : String
deriving DecidableEq, Repr

/-- Outcome of the HTTP GET through the tunnel: status code, raw body text,
and the result of `json.Decode` on the body. -/
structure ProbeResponse where
  statusCode : Nat
  rawBody : String
  decoded : Except String ApiInfo
deriving Repr

/-- Embedding of the `APIDiscoveryInfo` result struct (discovery.go lines
19-24).  `hasStopFunc` records whether the `StopPortForward` field is
non-nil. -/
structure APIDiscoveryInfo where
  PublicURL : String
  PortForwardURL : String
  APIID : String
  hasStopFunc : Bool
deriving DecidableEq, Repr

/-- Full observable outcome of one `DiscoverAPIEndpointFast` call: the
returned value or error, whether `SetupPortForward` succeeded (a tunnel was
established), and whether `stopFunc` was invoked before returning. -/
structure DiscoveryOutcome where
  result : Except String APIDiscoveryInfo
  tunnelStarted : Bool
  tunnelReleased : Bool
deriving Repr

/-- Embedding of `DiscoverAPIEndpointFast` (discovery.go lines 30-86).  The
two effectful inputs are abstracted: `setup` is the outcome of
`SetupPortForward` (the port-forward URL on success) and `probe` the
outcome of the HTTP GET to `<tunnelURL>/health?info=true`.  Every branch of
the source is reproduced: setup failure propagates the error; a transport
error, a status other than 200 (`http.StatusOK`), or a JSON decode failure
releases the tunnel and returns an error; a non-empty `public_url` releases
the tunnel and returns only the public URL and API ID with a nil stop
function; an empty `public_url` keeps the tunnel open and hands the stop
function to the caller. -/
def DiscoverAPIEndpointFast (setup : Except String String)
    (probe : Except String ProbeResponse) : DiscoveryOutcome :=
  match setup with
  | Except.error e =>
      { result := Except.error ("failed to setup initial connection: " ++ e),
        tunnelStarted := false, tunnelReleased := false }
  | Except.ok portForwardURL =>
    match probe with
    | Except.error e =>
        { result := Except.error ("failed to get API info: " ++ e),
          tunnelStarted := true, tunnelReleased := true }
    | Except.ok resp =>
      if resp.statusCode ≠ 200 then
        { result := Except.error ("API info request failed with status " ++
            toString resp.statusCode ++ ": " ++ resp.rawBody),
          tunnelStarted := true, tunnelReleased := true }
      else
        match resp.decoded with
        | Except.error e =>
            { result := Except.error ("failed to parse API info: " ++ e),
              tunnelStarted := true, tunnelReleased := true }
        | Except.ok apiInfo =>
          if apiInfo.public_url ≠ "" then
            { result := Except.ok
                { PublicURL := apiInfo.public_url, PortForwardURL := "",
                  APIID := apiInfo.api_id, hasStopFunc := false },
              tunnelStarted := true, tunnelReleased := true }
          else
            { result := Except.ok
                { PublicURL := "", PortForwardURL := portForwardURL,
                  APIID := apiInfo.api_id, hasStopFunc := true },
              tunnelStarted := true, tunnelReleased := false }

/- ### Cluster data model (the fields the checked functions read) -/

/-- Pod lifecycle phase (corev1.PodPhase). -/
inductive PodPhase where
  | Pending : PodPhase
  | Running : PodPhase
  | Succeeded : PodPhase
  | Failed : PodPhase
  | Unknown : PodPhase
deriving DecidableEq, Repr

/-- One entry of `pod.Status.ContainerStatuses`. -/
structure ContainerStatus where
  Ready : Bool
deriving DecidableEq, Repr

/-- One entry of `pod.Spec.Containers`. -/
structure PodContainer where
  Name : String
deriving DecidableEq, Repr

/-- The pod fields read by readiness checking and log streaming. -/
structure Pod where
  Name : String
  Labels : List (String × String)
  Containers : List PodContainer
  Phase : PodPhase
  ContainerStatuses : List ContainerStatus
deriving DecidableEq, Repr

/-- Readiness condition of one endpoint-slice endpoint
(`endpoint.Conditions.Ready`, a nullable bool). -/
structure EndpointConditions where
  Ready : Option Bool
deriving DecidableEq, Repr

/-- One endpoint of an endpoint slice. -/
structure SliceEndpoint where
  Conditions : EndpointConditions
deriving DecidableEq, Repr

/-- An endpoint slice, reduced to its endpoint list. -/
structure EndpointSlice where
  Endpoints : List SliceEndpoint
deriving DecidableEq, Repr

/-- An ingress, reduced to the addresses of
`Status.LoadBalancer.Ingress`. -/
structure Ingress where
  lbAddresses : List String
deriving DecidableEq, Repr

/- ### Traffic readiness (readiness source file, CheckServiceReadiness) -/

/-- Embedding of `hasIngressLoadBalancer`: false on a nil ingress,
otherwise true exactly when `Status.LoadBalancer.Ingress` is non-empty. -/
def hasIngressLoadBalancer : Option Ingress → Bool
  | none => false
  | some ingress => decide (0 < ingress.lbAddresses.length)

/-- Embedding of `arePodsReady`: an empty pod list is never ready; every
pod not in the Succeeded phase must be Running with all its container
statuses ready. -/
def arePodsReady (pods : List Pod) : Bool :=
  if pods.length = 0 then false
  else pods.all fun pod =>
    if pod.Phase = PodPhase.Succeeded then true
    else if pod.Phase ≠ PodPhase.Running then false
    else pod.ContainerStatuses.all fun cs => cs.Ready

/-- Go test `endpoint.Conditions.Ready == nil || *endpoint.Conditions.Ready`:
a nil readiness condition counts as ready (backward compatibility). -/
def endpointConditionReady : Option Bool → Bool
  | none => true
  | some b => b

/-- Embedding of `hasReadyEndpointSlices`: an empty slice list is never
ready; otherwise ready when some slice has some endpoint whose readiness
condition is nil or true. -/
def hasReadyEndpointSlices (endpointSlices : List EndpointSlice) : Bool :=
  if endpointSlices.length = 0 then false
  else endpointSlices.any fun slice =>
    slice.Endpoints.any fun endpoint =>
      endpointConditionReady endpoint.Conditions.Ready

/-- Combined outcome of `GetIngressForService` and the
`err != nil || !hasIngressLoadBalancer(ingress)` test in
`CheckServiceReadiness` stage 2. -/
def ingressReadyCheck : Except String Ingress → Bool
  | Except.error _ => false
  | Except.ok ingress => hasIngressLoadBalancer (some ingress)

/-- Combined outcome of `ListEndpointSlices` and the
`err != nil || !hasReadyEndpointSlices(endpointSlices)` test in
`CheckServiceReadiness` stage 4. -/
def slicesReadyCheck : Except String (List EndpointSlice) → Bool
  | Except.error _ => false
  | Except.ok slices => hasReadyEndpointSlices slices

/-- The `TrafficReadiness` result struct. -/
structure TrafficReadiness where
  IsReady : Bool
  ServiceExists : Bool
  EndpointsReady : Bool
  IngressReady : Bool
  PodsReady : Bool
  FailureReason : String
deriving DecidableEq, Repr

/-- Embedding of `CheckServiceReadiness`: the four stages run in the fixed
order service → ingress → pods → endpoints, each failing stage returning
immediately with its reason and all later booleans left false.  The
effectful lookups (`GetService`, `GetIngressForService`,
`ListEndpointSlices`) are abstracted as `Except` inputs. -/
def CheckServiceReadiness (serviceRes : Except String Unit)
    (ingressRes : Except String Ingress) (pods : List Pod)
    (slicesRes : Except String (List EndpointSlice)) : TrafficReadiness :=
  match serviceRes with
  | Except.error _ =>
      { IsReady := false, ServiceExists := false, EndpointsReady := false,
        IngressReady := false, PodsReady := false, FailureReason := "no service" }
  | Except.ok _ =>
    if ingressReadyCheck ingressRes = false then
      { IsReady := false, ServiceExists := true, EndpointsReady := false,
        IngressReady := false, PodsReady := false, FailureReason := "no lb yet" }
    else if arePodsReady pods = false then
      { IsReady := false, ServiceExists := true, EndpointsReady := false,
        IngressReady := true, PodsReady := false, FailureReason := "pod not ready" }
    else if slicesReadyCheck slicesRes = false then
      { IsReady := false, ServiceExists := true, EndpointsReady := false,
        IngressReady := true, PodsReady := true, FailureReason := "no endpoints" }
    else
      { IsReady := true, ServiceExists := true, EndpointsReady := true,
        IngressReady := true, PodsReady := true, FailureReason := "" }

/-- One minute in nanoseconds — Go `time.Minute` as an int64 duration. -/
def timeMinute : Int := 60000000000

/-- Embedding of `FormatReadinessStatus`: green when ready; the generic
starting-up reason for a service younger than one minute; otherwise the
specific failure reason, or unknown when the reason is empty.
`serviceAge` is a duration in nanoseconds. -/
def FormatReadinessStatus (readiness : TrafficReadiness) (serviceAge : Int) : String :=
  if readiness.IsReady then "🟢"
  else if serviceAge < timeMinute then "⚪ (starting up..)"
  else if readiness.FailureReason ≠ "" then "⚪ (" ++ readiness.FailureReason ++ ")"
  else "⚪ (unknown)"

/- ### Log streaming (log source file and cmd/logs.go) -/

/-- The `LogOptions` struct; `Since` is a duration in nanoseconds. -/
structure LogOptions where
  Follow : Bool
  Timestamps : Bool
  TailLines : Option Int
  Since : Option Int
  Container : String
deriving DecidableEq, Repr

/-- The corev1 `PodLogOptions` fields set by `StreamLogs`. -/
structure PodLogOptions where
  Follow : Bool
  Timestamps : Bool
  TailLines : Option Int
  SinceSeconds : Option Int
  Container : String
deriving DecidableEq, Repr

/-- Embedding of the option translation in `StreamLogs`: the `Timestamps`
flag is forwarded to the log request (so the log source embeds its own
timestamps into the line text), `Since` is converted to whole seconds, and
the rest is copied. -/
def buildPodLogOptions (opts : LogOptions) : PodLogOptions :=
  { Follow := opts.Follow
    Timestamps := opts.Timestamps
    TailLines := opts.TailLines
    SinceSeconds := opts.Since.map (fun d => d / 1000000000)
    Container := opts.Container }

/-- The `LogLine` struct.  `Timestamp` is an instant on the local wall
clock (`time.Time` reduced to a tick count). -/
structure LogLine where
  PodName : String
  Container : String
  Message : String
  Timestamp : Nat
deriving DecidableEq, Repr

/-- Embedding of the per-container read-and-forward loop of
`StreamLogsMulti`: `streamLines` are the lines the scanner yields (already
stripped of their delimiting newline, as `scanner.Text()` returns them),
`clock` is the local wall clock that `time.Now()` samples at each send,
and `t` is the index of the next send.  Each line is forwarded as a
`LogLine` stamped with the clock value at its send. -/
def readContainerLog (podName container : String) (clock : Nat → Nat) :
    List String → Nat → List LogLine
  | [], _ => []
  | line :: rest, t =>
      { PodName := podName, Container := container, Message := line,
        Timestamp := clock t } :: readContainerLog podName container clock rest (t + 1)

/-- Containers one pod goroutine of `StreamLogsMulti` reads from: the
single container named in the options, or every container of the pod
spec. -/
def containersToStream (opts : LogOptions) (pod : Pod) : List String :=
  if opts.Container ≠ "" then [opts.Container]
  else pod.Containers.map fun c => c.Name

/-- Per-(pod, container) reader outcome inside one pod goroutine of
`StreamLogsMulti`: whether `StreamLogs` failed to open the stream, and
whether the scanner reported a read error afterwards. -/
structure ContainerOutcome where
  openFails : Bool
  scanErr : Bool
deriving DecidableEq, Repr

/-- Number of messages one pod goroutine of `StreamLogsMulti` sends on
`errCh`: one per container whose stream fails to open, one per container
whose scanner ends with an error, plus the final nil sent when the
goroutine finishes. -/
def goroutineSendCount (containers : List ContainerOutcome) : Nat :=
  (containers.map fun c =>
    if c.openFails then 1 else if c.scanErr then 1 else 0).sum + 1

/-- A prefix of an execution of the pod goroutines, recorded as the
sequence of goroutine indices whose `errCh` sends have happened so far.
It is realizable when every index is a goroutine and no goroutine has
sent more messages than its program emits; the goroutines share no
synchronization besides `errCh`, so every such prefix is a valid Go
schedule. -/
def reachableSendState (sendCounts : List Nat) (sentSoFar : List Nat) : Bool :=
  sentSoFar.all (fun i => decide (i < sendCounts.length)) &&
  (List.range sendCounts.length).all fun i =>
    decide (sentSoFar.count i ≤ sendCounts.getD i 0)

/-- The wait loop of `StreamLogsMulti` performs exactly `len(pods)`
receives on `errCh`; it can complete as soon as that many sends have
happened. -/
def mainLoopCompletes (sendCounts : List Nat) (sentSoFar : List Nat) : Bool :=
  decide (sendCounts.length ≤ sentSoFar.length)

/-- A pod goroutine exits only after its final `errCh` send, so all
readers have terminated only if every goroutine has performed all of its
sends. -/
def allReadersExited (sendCounts : List Nat) (sentSoFar : List Nat) : Bool :=
  (List.range sendCounts.length).all fun i =>
    decide (sentSoFar.count i = sendCounts.getD i 0)

/-- Go map lookup `labels[key]` with the zero-value default. -/
def lookupLabel (labels : List (String × String)) (key : String) : String :=
  match labels.find? (fun kv => kv.1 == key) with
  | some kv => kv.2
  | none => ""

/-- Embedding of `filterPods` (cmd/logs.go): a non-empty pod-name filter
selects the first pod of that name (or nothing); otherwise a non-empty
service-name filter keeps pods matching either service label or the
name-prefix convention; otherwise all pods are kept. -/
def filterPods (pods : List Pod) (serviceName podName : String) : List Pod :=
  if podName ≠ "" then
    match pods.find? (fun pod => pod.Name == podName) with
    | some pod => [pod]
    | none => []
  else if serviceName ≠ "" then
    pods.filter fun pod =>
      lookupLabel pod.Labels "lissto.dev/service" == serviceName ||
      lookupLabel pod.Labels "io.kompose.service" == serviceName ||
      pod.Name.startsWith (serviceName ++ "-")
  else pods

/-- Observable plan of one `runLogs` log session after pod filtering: the
(pod, container) log streams that get opened and the session error, if
any. -/
structure LogSessionPlan where
  opened : List (String × String)
  err : Option String
deriving DecidableEq, Repr

/-- Embedding of the max-pods gate of `runLogs` (cmd/logs.go lines
176-179) together with the (pod, container) stream opens the subsequent
`StreamLogsMulti` call performs.  The gate runs before any stream is
opened: on violation the session returns the error having opened
nothing. -/
def runLogsSession (filteredPods : List Pod) (maxPods : Int)
    (opts : LogOptions) : LogSessionPlan :=
  if (filteredPods.length : Int) > maxPods then
    { opened := [],
      err := some ("found " ++ toString filteredPods.length ++
        " pods but max-pods is set to " ++ toString maxPods ++
        ". Use --max-pods to increase the limit or add filters (--service, --pod, --env)") }
  else
    { opened := filteredPods.flatMap (fun pod =>
        (containersToStream opts pod).map (fun c => (pod.Name, c))),
      err := none }

end Lissto

open Lissto

/-- C1 counterexample: the claim "calling the returned release function
twice produces no error and no panic on either call" is false for the stop
function actually returned by `startPortForward` on the ready path: the
second call closes an already-closed channel, which panics. -/
theorem release_twice_not_safe :
    (startPortForward ForwardWait.ready).1 = Except.ok closeChan ∧
    ¬ releaseTwiceSafe closeChan := by
  refine ⟨rfl, ?_⟩
  rintro ⟨s1, h1, h2⟩
  have hs : ChanState.closed = s1 := by simpa [closeChan] using h1
  rw [← hs] at h2
  simp [closeChan, Except.isOk, Except.toBool] at h2

/-- C1 amended: for the tunnel established by `startPortForward`, the first
call of the returned release function stops the forwarder without error,
but a second call panics with "close of closed channel" — the stop is safe
to call exactly once, not idempotent. -/
theorem release_once_ok_twice_panics :
    (startPortForward ForwardWait.ready).1 = Except.ok closeChan ∧
    (startPortForward ForwardWait.ready).2 = ChanState.opened ∧
    closeChan ChanState.opened = Except.ok ChanState.closed ∧
    closeChan ChanState.closed = Except.error "close of closed channel" :=
  ⟨rfl, rfl, rfl, rfl⟩

theorem findAvailablePort_eq_some (isAvail : Nat → Bool) (s p : Nat)
    (h : findAvailablePort isAvail s = p) (hp : p ≠ 0) :
    ((List.range 99).map (fun i => s + 1 + i)).find? isAvail = some p := by
  unfold findAvailablePort at h
  cases hf : ((List.range 99).map (fun i => s + 1 + i)).find? isAvail with
  | none => rw [hf] at h; exact absurd h.symm hp
  | some q => rw [hf] at h; rw [← h]

/-- C7: local port selection of `SetupPortForward`: a free preferred port is
used unchanged; every successfully selected port was free at selection
time; with a busy preferred port any successful selection is the first free
port of the probe sequence and never the busy preferred port itself; and
when the preferred port and all 99 probed ports are busy the call fails
with the no-alternative-ports error instead of binding any port. -/
theorem setupPortForward_port_selection (isAvail : Nat → Bool) (localPort : Nat) :
    (isAvail localPort = true → resolveLocalPort isAvail localPort = Except.ok localPort) ∧
    (∀ p, resolveLocalPort isAvail localPort = Except.ok p → isAvail p = true) ∧
    (isAvail localPort = false → ∀ p, resolveLocalPort isAvail localPort = Except.ok p →
      p ≠ localPort ∧
      ((List.range 99).map (fun i => localPort + 1 + i)).find? isAvail = some p) ∧
    ((isAvail localPort = false ∧ ∀ i, i < 99 → isAvail (localPort + 1 + i) = false) →
      resolveLocalPort isAvail localPort =
        Except.error ("port " ++ toString localPort ++
          " is already in use and no alternative ports available")) := by
  refine ⟨?_, ?_, ?_, ?_⟩
  · intro h
    simp [resolveLocalPort, h]
  · intro p hp
    unfold resolveLocalPort at hp
    split at hp
    case isTrue h =>
      injection hp with hp'
      rw [← hp']; exact h
    case isFalse h =>
      split at hp
      · exact absurd hp (by simp)
      case isFalse hne =>
        injection hp with hp'
        have hp0 : p ≠ 0 := by rw [← hp']; exact hne
        have hfind := findAvailablePort_eq_some isAvail localPort p hp' hp0
        exact List.find?_some hfind
  · intro h p hp
    unfold resolveLocalPort at hp
    rw [if_neg (by simp [h])] at hp
    split at hp
    · exact absurd hp (by simp)
    case isFalse hne =>
      injection hp with hp'
      have hp0 : p ≠ 0 := by rw [← hp']; exact hne
      have hfind := findAvailablePort_eq_some isAvail localPort p hp' hp0
      have hmem := List.mem_of_find?_eq_some hfind
      simp only [List.mem_map, List.mem_range] at hmem
      obtain ⟨i, _, hi⟩ := hmem
      refine ⟨?_, hfind⟩
      omega
  · rintro ⟨h, hall⟩
    have hnone : ((List.range 99).map (fun i => localPort + 1 + i)).find? isAvail = none := by
      rw [List.find?_eq_none]
      intro x hx
      simp only [List.mem_map, List.mem_range] at hx
      obtain ⟨i, hi, hxi⟩ := hx
      rw [← hxi]
      simp [hall i hi]
    have h0 : findAvailablePort isAvail localPort = 0 := by
      unfold findAvailablePort
      rw [hnone]
    simp [resolveLocalPort, h, h0]

/-- Witness for C7 at a concrete input: port 8080 is busy, every higher
port is free, so selection succeeds with 8081, which differs from 8080. -/
theorem setupPortForward_port_selection_witness :
    (fun p => !(p == 8080)) 8080 = false ∧
    resolveLocalPort (fun p => !(p == 8080)) 8080 = Except.ok 8081 ∧
    (8081 : Nat) ≠ 8080 := by
  refine ⟨rfl, by rfl, ?_⟩
  exact ((setupPortForward_port_selection (fun p => !(p == 8080)) 8080).2.2.1
    rfl 8081 (by rfl)).1

/-- C2: when `DiscoverAPIEndpointFast` succeeds, exactly one of a
non-empty public URL or a still-open tunnel holds: a non-empty `PublicURL`
comes with the tunnel released, no stop function and an empty
`PortForwardURL`; an empty `PublicURL` comes with the tunnel unreleased,
the stop function handed to the caller, and the tunnel URL from setup; in
both cases the result carries the probed API instance ID. -/
theorem discoverFast_exactly_one_endpoint (setup : Except String String)
    (probe : Except String ProbeResponse) (info : APIDiscoveryInfo)
    (h : (DiscoverAPIEndpointFast setup probe).result = Except.ok info) :
    (info.PublicURL ≠ "" →
      (DiscoverAPIEndpointFast setup probe).tunnelReleased = true ∧
      info.hasStopFunc = false ∧ info.PortForwardURL = "") ∧
    (info.PublicURL = "" →
      (DiscoverAPIEndpointFast setup probe).tunnelReleased = false ∧
      info.hasStopFunc = true ∧
      ∀ url, setup = Except.ok url → info.PortForwardURL = url) ∧
    (info.PublicURL = "" ↔ (DiscoverAPIEndpointFast setup probe).tunnelReleased = false) ∧
    (∀ resp apiInfo, probe = Except.ok resp → resp.decoded = Except.ok apiInfo →
      info.APIID = apiInfo.api_id) := by
  rcases setup with e | portForwardURL
  · simp [DiscoverAPIEndpointFast] at h
  rcases probe with e | resp
  · simp [DiscoverAPIEndpointFast] at h
  rcases resp with ⟨status, body, dec⟩
  by_cases hst : status = 200
  case neg => simp [DiscoverAPIEndpointFast, hst] at h
  subst hst
  rcases dec with e | ⟨pub, apiid⟩
  · simp [DiscoverAPIEndpointFast] at h
  by_cases hpub : pub = ""
  · subst hpub
    simp [DiscoverAPIEndpointFast] at h
    subst h
    refine ⟨?_, ?_, ?_, ?_⟩
    · intro hne
      simp at hne
    · intro _
      refine ⟨by simp [DiscoverAPIEndpointFast], rfl, ?_⟩
      intro url hurl
      exact Except.ok.inj hurl
    · simp [DiscoverAPIEndpointFast]
    · intro resp2 apiInfo2 hr hd
      injection hr with hr'
      rw [← hr'] at hd
      rcases apiInfo2 with ⟨pu2, ai2⟩
      simp at hd
      simpa using hd.2
  · simp [DiscoverAPIEndpointFast, hpub] at h
    subst h
    refine ⟨?_, ?_, ?_, ?_⟩
    · intro _
      exact ⟨by simp [DiscoverAPIEndpointFast, hpub], rfl, rfl⟩
    · intro heq
      simp at heq
      exact absurd heq hpub
    · constructor
      · intro heq
        simp at heq
        exact absurd heq hpub
      · intro hrel
        simp [DiscoverAPIEndpointFast, hpub] at hrel
    · intro resp2 apiInfo2 hr hd
      injection hr with hr'
      rw [← hr'] at hd
      rcases apiInfo2 with ⟨pu2, ai2⟩
      simp at hd
      simpa using hd.2

/-- Witness for C2 at concrete inputs: a 200 probe with a non-empty public
URL yields a released tunnel and no stop function, and with an empty
public URL yields an unreleased tunnel carrying the stop function. -/
theorem discoverFast_exactly_one_endpoint_witness :
    ((DiscoverAPIEndpointFast (Except.ok "http://localhost:8080")
        (Except.ok ⟨200, "", Except.ok ⟨"https://api.example.com", "abc"⟩⟩)).tunnelReleased = true ∧
      (⟨"https://api.example.com", "", "abc", false⟩ : APIDiscoveryInfo).hasStopFunc = false ∧
      (⟨"https://api.example.com", "", "abc", false⟩ : APIDiscoveryInfo).PortForwardURL = "") ∧
    ((DiscoverAPIEndpointFast (Except.ok "http://localhost:8080")
        (Except.ok ⟨200, "", Except.ok ⟨"", "abc"⟩⟩)).tunnelReleased = false ∧
      (⟨"", "http://localhost:8080", "abc", true⟩ : APIDiscoveryInfo).hasStopFunc = true ∧
      ∀ url, (Except.ok "http://localhost:8080" : Except String String) = Except.ok url →
        (⟨"", "http://localhost:8080", "abc", true⟩ : APIDiscoveryInfo).PortForwardURL = url) := by
  constructor
  · exact (discoverFast_exactly_one_endpoint (Except.ok "http://localhost:8080")
      (Except.ok ⟨200, "", Except.ok ⟨"https://api.example.com", "abc"⟩⟩)
      ⟨"https://api.example.com", "", "abc", false⟩ (by rfl)).1 (by simp)
  · exact (discoverFast_exactly_one_endpoint (Except.ok "http://localhost:8080")
      (Except.ok ⟨200, "", Except.ok ⟨"", "abc"⟩⟩)
      ⟨"", "http://localhost:8080", "abc", true⟩ (by rfl)).2.1 rfl

/-- C6 counterexample: the claim makes the probe fatal exactly for non-2xx
statuses, but the source tests `resp.StatusCode != http.StatusOK` — exactly
200.  At status 204, a 2xx status carrying a parseable JSON payload, the
call errors and releases the tunnel instead of proceeding. -/
theorem probe_status_204_is_fatal :
    ((200 : Nat) ≤ 204 ∧ (204 : Nat) < 300) ∧
    (DiscoverAPIEndpointFast (Except.ok "http://localhost:8080")
      (Except.ok ⟨204, "", Except.ok ⟨"", "abc"⟩⟩)).result =
      Except.error "API info request failed with status 204: " ∧
    (DiscoverAPIEndpointFast (Except.ok "http://localhost:8080")
      (Except.ok ⟨204, "", Except.ok ⟨"", "abc"⟩⟩)).tunnelReleased = true :=
  ⟨⟨by norm_num, by norm_num⟩, rfl, rfl⟩

/-- C6 amended: once the tunnel is established, the health probe is fatal
exactly when a transport error occurs or the response status differs from
200 (`http.StatusOK`) — in those cases the tunnel is released and an error
returned — and every status-200 response with a parseable JSON payload
proceeds to the public-URL decision without error. -/
theorem discoverFast_probe_fatality (setup : Except String String)
    (probe : Except String ProbeResponse) (url : String)
    (hsetup : setup = Except.ok url) :
    (∀ e, probe = Except.error e →
      (DiscoverAPIEndpointFast setup probe).result =
        Except.error ("failed to get API info: " ++ e) ∧
      (DiscoverAPIEndpointFast setup probe).tunnelReleased = true) ∧
    (∀ resp, probe = Except.ok resp → resp.statusCode ≠ 200 →
      (DiscoverAPIEndpointFast setup probe).result =
        Except.error ("API info request failed with status " ++
          toString resp.statusCode ++ ": " ++ resp.rawBody) ∧
      (DiscoverAPIEndpointFast setup probe).tunnelReleased = true) ∧
    (∀ resp apiInfo, probe = Except.ok resp → resp.statusCode = 200 →
      resp.decoded = Except.ok apiInfo →
      (DiscoverAPIEndpointFast setup probe).result.isOk = true) := by
  subst hsetup
  refine ⟨?_, ?_, ?_⟩
  · intro e he
    subst he
    exact ⟨rfl, rfl⟩
  · intro resp hresp hst
    subst hresp
    rcases resp with ⟨status, body, dec⟩
    simp only at hst
    simp [DiscoverAPIEndpointFast, hst]
  · intro resp apiInfo hresp hst hdec
    subst hresp
    rcases resp with ⟨status, body, dec⟩
    simp only at hst hdec
    subst hst
    subst hdec
    by_cases hpub : apiInfo.public_url = ""
    · simp [DiscoverAPIEndpointFast, hpub, Except.isOk, Except.toBool]
    · simp [DiscoverAPIEndpointFast, hpub, Except.isOk, Except.toBool]

/-- Witness for C6 (amended) at concrete inputs: a transport error is fatal
and releases the tunnel, and a 200 response with a parseable payload
succeeds. -/
theorem discoverFast_probe_fatality_witness :
    ((DiscoverAPIEndpointFast (Except.ok "http://localhost:8080")
        (Except.error "connection refused")).result =
      Except.error ("failed to get API info: " ++ "connection refused") ∧
    (DiscoverAPIEndpointFast (Except.ok "http://localhost:8080")
        (Except.error "connection refused")).tunnelReleased = true) ∧
    (DiscoverAPIEndpointFast (Except.ok "http://localhost:8080")
      (Except.ok ⟨200, "", Except.ok ⟨"", "abc"⟩⟩)).result.isOk = true :=
  ⟨(discoverFast_probe_fatality (Except.ok "http://localhost:8080")
      (Except.error "connection refused") "http://localhost:8080" rfl).1
      "connection refused" rfl,
   (discoverFast_probe_fatality (Except.ok "http://localhost:8080")
      (Except.ok ⟨200, "", Except.ok ⟨"", "abc"⟩⟩) "http://localhost:8080" rfl).2.2
      ⟨200, "", Except.ok ⟨"", "abc"⟩⟩ ⟨"", "abc"⟩ rfl rfl rfl⟩

/-- C5: `CheckServiceReadiness` runs its stages in the fixed order
service → ingress → pods → endpoints and short-circuits: the first failing
stage fixes the failure reason and every later stage boolean stays false;
in particular a missing service yields exactly the no-service result with
all later booleans false. -/
theorem checkServiceReadiness_short_circuit (serviceRes : Except String Unit)
    (ingressRes : Except String Ingress) (pods : List Pod)
    (slicesRes : Except String (List EndpointSlice)) :
    (serviceRes.isOk = false →
      CheckServiceReadiness serviceRes ingressRes pods slicesRes =
        { IsReady := false, ServiceExists := false, EndpointsReady := false,
          IngressReady := false, PodsReady := false, FailureReason := "no service" }) ∧
    ((CheckServiceReadiness serviceRes ingressRes pods slicesRes).ServiceExists = false →
      (CheckServiceReadiness serviceRes ingressRes pods slicesRes).FailureReason = "no service" ∧
      (CheckServiceReadiness serviceRes ingressRes pods slicesRes).IngressReady = false ∧
      (CheckServiceReadiness serviceRes ingressRes pods slicesRes).PodsReady = false ∧
      (CheckServiceReadiness serviceRes ingressRes pods slicesRes).EndpointsReady = false) ∧
    ((CheckServiceReadiness serviceRes ingressRes pods slicesRes).ServiceExists = true →
      (CheckServiceReadiness serviceRes ingressRes pods slicesRes).IngressReady = false →
      (CheckServiceReadiness serviceRes ingressRes pods slicesRes).FailureReason = "no lb yet" ∧
      (CheckServiceReadiness serviceRes ingressRes pods slicesRes).PodsReady = false ∧
      (CheckServiceReadiness serviceRes ingressRes pods slicesRes).EndpointsReady = false) ∧
    ((CheckServiceReadiness serviceRes ingressRes pods slicesRes).IngressReady = true →
      (CheckServiceReadiness serviceRes ingressRes pods slicesRes).PodsReady = false →
      (CheckServiceReadiness serviceRes ingressRes pods slicesRes).FailureReason = "pod not ready" ∧
      (CheckServiceReadiness serviceRes ingressRes pods slicesRes).EndpointsReady = false) ∧
    ((CheckServiceReadiness serviceRes ingressRes pods slicesRes).PodsReady = true →
      (CheckServiceReadiness serviceRes ingressRes pods slicesRes).EndpointsReady = false →
      (CheckServiceReadiness serviceRes ingressRes pods slicesRes).FailureReason = "no endpoints") ∧
    ((CheckServiceReadiness serviceRes ingressRes pods slicesRes).EndpointsReady = true →
      (CheckServiceReadiness serviceRes ingressRes pods slicesRes).IsReady = true ∧
      (CheckServiceReadiness serviceRes ingressRes pods slicesRes).FailureReason = "") := by
  rcases serviceRes with e | u
  · refine ⟨fun _ => rfl, ?_, ?_, ?_, ?_, ?_⟩ <;>
      simp [CheckServiceReadiness]
  · by_cases h1 : ingressReadyCheck ingressRes <;>
      by_cases h2 : arePodsReady pods <;>
      by_cases h3 : slicesReadyCheck slicesRes <;>
      refine ⟨?_, ?_, ?_, ?_, ?_, ?_⟩ <;>
      simp [CheckServiceReadiness, h1, h2, h3, Except.isOk, Except.toBool]

/-- Witness for C5 at a concrete input: with the service lookup failing,
the result is exactly the no-service result with every later boolean
false. -/
theorem checkServiceReadiness_short_circuit_witness :
    (Except.error "services \"api\" not found" : Except String Unit).isOk = false ∧
    CheckServiceReadiness (Except.error "services \"api\" not found")
        (Except.error "no ingress found for service api") [] (Except.ok []) =
      { IsReady := false, ServiceExists := false, EndpointsReady := false,
        IngressReady := false, PodsReady := false, FailureReason := "no service" } :=
  ⟨rfl, (checkServiceReadiness_short_circuit (Except.error "services \"api\" not found")
    (Except.error "no ingress found for service api") [] (Except.ok [])).1 rfl⟩

theorem endpointConditionReady_iff (r : Option Bool) :
    endpointConditionReady r = true ↔ r = none ∨ r = some true := by
  cases r with
  | none => simp [endpointConditionReady]
  | some b => cases b <;> simp [endpointConditionReady]

/-- C8: `hasReadyEndpointSlices` reports ready exactly when some listed
slice has some endpoint whose Ready condition is true or unset (nil counts
as ready); an empty slice list is never ready; and when the earlier stages
pass but the endpoint stage fails, `CheckServiceReadiness` reports the
reason "no endpoints". -/
theorem hasReadyEndpointSlices_spec (slices : List EndpointSlice) :
    (hasReadyEndpointSlices slices = true ↔
      ∃ s ∈ slices, ∃ e ∈ s.Endpoints,
        e.Conditions.Ready = none ∨ e.Conditions.Ready = some true) ∧
    hasReadyEndpointSlices [] = false ∧
    (∀ (ingressRes : Except String Ingress) (pods : List Pod),
      ingressReadyCheck ingressRes = true → arePodsReady pods = true →
      hasReadyEndpointSlices slices = false →
      CheckServiceReadiness (Except.ok ()) ingressRes pods (Except.ok slices) =
        { IsReady := false, ServiceExists := true, EndpointsReady := false,
          IngressReady := true, PodsReady := true, FailureReason := "no endpoints" }) := by
  refine ⟨?_, rfl, ?_⟩
  · cases slices with
    | nil => simp [hasReadyEndpointSlices]
    | cons s rest =>
      simp [hasReadyEndpointSlices, List.any_eq_true, endpointConditionReady_iff]
  · intro ingressRes pods h1 h2 h3
    simp [CheckServiceReadiness, h1, h2, slicesReadyCheck, h3]

/-- Witness for C8 at concrete inputs: a slice whose single endpoint has a
nil Ready condition counts as ready, and with ready ingress and pods but an
empty slice list the readiness result reports "no endpoints". -/
theorem hasReadyEndpointSlices_spec_witness :
    (∃ s ∈ [EndpointSlice.mk [SliceEndpoint.mk (EndpointConditions.mk none)]],
      ∃ e ∈ s.Endpoints,
        e.Conditions.Ready = none ∨ e.Conditions.Ready = some true) ∧
    CheckServiceReadiness (Except.ok ()) (Except.ok (Ingress.mk ["203.0.113.7"]))
        [Pod.mk "api-1" [] [PodContainer.mk "main"] PodPhase.Running [ContainerStatus.mk true]]
        (Except.ok []) =
      { IsReady := false, ServiceExists := true, EndpointsReady := false,
        IngressReady := true, PodsReady := true, FailureReason := "no endpoints" } :=
  ⟨(hasReadyEndpointSlices_spec
      [EndpointSlice.mk [SliceEndpoint.mk (EndpointConditions.mk none)]]).1.mp (by decide),
   (hasReadyEndpointSlices_spec []).2.2 (Except.ok (Ingress.mk ["203.0.113.7"]))
      [Pod.mk "api-1" [] [PodContainer.mk "main"] PodPhase.Running [ContainerStatus.mk true]]
      (by decide) (by decide) rfl⟩

/-- C9: a readiness result for a service younger than one minute that is
not ready always renders the generic starting-up reason, whatever stage
failed; for a service at least one minute old the rendered reason is the
failing stage's own reason, which `CheckServiceReadiness` always sets to a
non-empty string when not ready. -/
theorem formatReadinessStatus_age_gate :
    (∀ (readiness : TrafficReadiness) (serviceAge : Int),
      readiness.IsReady = false → serviceAge < timeMinute →
      FormatReadinessStatus readiness serviceAge = "⚪ (starting up..)") ∧
    (∀ (serviceRes : Except String Unit) (ingressRes : Except String Ingress)
        (pods : List Pod) (slicesRes : Except String (List EndpointSlice))
        (serviceAge : Int),
      timeMinute ≤ serviceAge →
      (CheckServiceReadiness serviceRes ingressRes pods slicesRes).IsReady = false →
      (CheckServiceReadiness serviceRes ingressRes pods slicesRes).FailureReason ≠ "" ∧
      FormatReadinessStatus (CheckServiceReadiness serviceRes ingressRes pods slicesRes)
          serviceAge =
        "⚪ (" ++ (CheckServiceReadiness serviceRes ingressRes pods slicesRes).FailureReason ++
          ")") := by
  constructor
  · intro readiness serviceAge hready hage
    simp [FormatReadinessStatus, hready, hage]
  · intro serviceRes ingressRes pods slicesRes serviceAge hage hnotready
    have hnl : ¬ (serviceAge < timeMinute) := not_lt.mpr hage
    rcases serviceRes with e | u
    · refine ⟨by simp [CheckServiceReadiness], ?_⟩
      simp [CheckServiceReadiness, FormatReadinessStatus, hnl]
    · by_cases h1 : ingressReadyCheck ingressRes
      · by_cases h2 : arePodsReady pods
        · by_cases h3 : slicesReadyCheck slicesRes
          · exfalso
            simp [CheckServiceReadiness, h1, h2, h3] at hnotready
          · refine ⟨by simp [CheckServiceReadiness, h1, h2, h3], ?_⟩
            simp [CheckServiceReadiness, h1, h2, h3, FormatReadinessStatus, hnl]
        · refine ⟨by simp [CheckServiceReadiness, h1, h2], ?_⟩
          simp [CheckServiceReadiness, h1, h2, FormatReadinessStatus, hnl]
      · refine ⟨by simp [CheckServiceReadiness, h1], ?_⟩
        simp [CheckServiceReadiness, h1, FormatReadinessStatus, hnl]

/-- Witness for C9 at concrete inputs: the no-service result renders as
starting up at age 30s, and as its own reason at age exactly one minute. -/
theorem formatReadinessStatus_age_gate_witness :
    FormatReadinessStatus
      { IsReady := false, ServiceExists := false, EndpointsReady := false,
        IngressReady := false, PodsReady := false, FailureReason := "no service" }
      30000000000 = "⚪ (starting up..)" ∧
    ((CheckServiceReadiness (Except.error "not found") (Except.ok (Ingress.mk []))
        [] (Except.ok [])).FailureReason ≠ "" ∧
      FormatReadinessStatus
        (CheckServiceReadiness (Except.error "not found") (Except.ok (Ingress.mk []))
          [] (Except.ok [])) 60000000000 =
        "⚪ (" ++ (CheckServiceReadiness (Except.error "not found")
          (Except.ok (Ingress.mk [])) [] (Except.ok [])).FailureReason ++ ")") :=
  ⟨formatReadinessStatus_age_gate.1
      { IsReady := false, ServiceExists := false, EndpointsReady := false,
        IngressReady := false, PodsReady := false, FailureReason := "no service" }
      30000000000 rfl (by norm_num [timeMinute]),
   formatReadinessStatus_age_gate.2 (Except.error "not found") (Except.ok (Ingress.mk []))
      [] (Except.ok []) 60000000000 (by norm_num [timeMinute]) rfl⟩

/-- C4: the max-pods gate of the log session: when the filtered pod list is
longer than the caller-supplied maximum, the session fails before any
(pod, container) log stream is opened — the plan records an error and an
empty open list — and a session whose pod list is within the limit is not
rejected by this check. -/
theorem runLogs_maxPods_gate (filteredPods : List Pod) (maxPods : Int)
    (opts : LogOptions) :
    ((filteredPods.length : Int) > maxPods →
      (runLogsSession filteredPods maxPods opts).opened = [] ∧
      (runLogsSession filteredPods maxPods opts).err.isSome = true) ∧
    ((filteredPods.length : Int) ≤ maxPods →
      (runLogsSession filteredPods maxPods opts).err = none) := by
  constructor
  · intro h
    unfold runLogsSession
    rw [if_pos h]
    exact ⟨rfl, rfl⟩
  · intro h
    unfold runLogsSession
    rw [if_neg (not_lt.mpr h)]

/-- Witness for C4 at the spec's concrete input: 11 pods with a maximum of
10 are rejected with zero stream opens; the same pods with a maximum of 11
pass the check. -/
theorem runLogs_maxPods_gate_witness :
    (((List.replicate 11 (Pod.mk "api-1" [] [PodContainer.mk "main"]
        PodPhase.Running [])).length : Int) > 10 ∧
      ((runLogsSession (List.replicate 11 (Pod.mk "api-1" [] [PodContainer.mk "main"]
          PodPhase.Running [])) 10 (LogOptions.mk false false none none "")).opened = [] ∧
        (runLogsSession (List.replicate 11 (Pod.mk "api-1" [] [PodContainer.mk "main"]
          PodPhase.Running [])) 10 (LogOptions.mk false false none none "")).err.isSome = true)) ∧
    (runLogsSession (List.replicate 11 (Pod.mk "api-1" [] [PodContainer.mk "main"]
        PodPhase.Running [])) 11 (LogOptions.mk false false none none "")).err = none :=
  ⟨⟨by decide,
    (runLogs_maxPods_gate (List.replicate 11 (Pod.mk "api-1" [] [PodContainer.mk "main"]
      PodPhase.Running [])) 10 (LogOptions.mk false false none none "")).1 (by decide)⟩,
   (runLogs_maxPods_gate (List.replicate 11 (Pod.mk "api-1" [] [PodContainer.mk "main"]
      PodPhase.Running [])) 11 (LogOptions.mk false false none none "")).2 (by decide)⟩

/-- C3: evaluation of `StreamLogsMulti`'s completion protocol at the
claim's own scenario — 3 pods with 2 containers each where the 2 readers
of the first pod fail to open immediately.  The first pod's goroutine
sends 3 messages on `errCh` (one per failed open plus its final nil) while
the other two send 1 each; in the realizable execution where the first
goroutine runs to completion before the others send anything, the wait
loop's `len(pods) = 3` receives all complete, `StreamLogsMulti` returns
and the caller closes the sink, while the readers of pods 2 and 3 have not
terminated.  This contradicts the claim (and the source's own "Wait for
all goroutines" comment): error messages are mis-counted as goroutine
completions. -/
theorem streamLogsMulti_sink_closes_early :
    goroutineSendCount [ContainerOutcome.mk true false, ContainerOutcome.mk true false] = 3 ∧
    goroutineSendCount [ContainerOutcome.mk false false, ContainerOutcome.mk false false] = 1 ∧
    reachableSendState [3, 1, 1] [0, 0, 0] = true ∧
    mainLoopCompletes [3, 1, 1] [0, 0, 0] = true ∧
    allReadersExited [3, 1, 1] [0, 0, 0] = false := by decide

/-- C10: every log line forwarded by the reader loop of `StreamLogsMulti`
carries as `Timestamp` the local wall clock sampled at the moment of the
send (`time.Now()`), and as `Message` the source line verbatim — so
source-side timestamps requested via the `Timestamps` option, which is
merely forwarded to the log request by `StreamLogs`, can only appear
inside the message text, never in the `Timestamp` field. -/
theorem logLine_timestamp_is_send_clock (opts : LogOptions)
    (podName container : String) (clock : Nat → Nat)
    (streamLines : List String) (t i : Nat) (line : String)
    (h : streamLines[i]? = some line) :
    (readContainerLog podName container clock streamLines t)[i]? =
      some { PodName := podName, Container := container, Message := line,
             Timestamp := clock (t + i) } ∧
    (buildPodLogOptions opts).Timestamps = opts.Timestamps := by
  refine ⟨?_, rfl⟩
  induction streamLines generalizing t i with
  | nil => simp at h
  | cons head tail ih =>
    cases i with
    | zero =>
      simp only [List.getElem?_cons_zero, Option.some.injEq] at h
      simp [readContainerLog, h]
    | succ n =>
      simp only [List.getElem?_cons_succ] at h
      have htail := ih (t + 1) n h
      have harith : t + 1 + n = t + (n + 1) := by omega
      rw [harith] at htail
      simpa [readContainerLog] using htail

/-- Witness for C10 at a concrete input: the second line of a stream sent
starting at tick 100 is stamped with clock value 101 and carries the line
text untouched. -/
theorem logLine_timestamp_is_send_clock_witness :
    (["2026-01-01T00:00:00Z hello", "2026-01-01T00:00:01Z world"] :
        List String)[1]? = some "2026-01-01T00:00:01Z world" ∧
    (readContainerLog "api-1" "main" (fun n => 100 + n)
        ["2026-01-01T00:00:00Z hello", "2026-01-01T00:00:01Z world"] 0)[1]? =
      some { PodName := "api-1", Container := "main",
             Message := "2026-01-01T00:00:01Z world", Timestamp := 101 } ∧
    (buildPodLogOptions (LogOptions.mk false true none none "")).Timestamps =
      (LogOptions.mk false true none none "").Timestamps :=
  ⟨rfl,
   (logLine_timestamp_is_send_clock (LogOptions.mk false true none none "")
      "api-1" "main" (fun n => 100 + n)
      ["2026-01-01T00:00:00Z hello", "2026-01-01T00:00:01Z world"] 0 1
      "2026-01-01T00:00:01Z world" rfl).1,
   (logLine_timestamp_is_send_clock (LogOptions.mk false true none none "")
      "api-1" "main" (fun n => 100 + n)
      ["2026-01-01T00:00:00Z hello", "2026-01-01T00:00:01Z world"] 0 1
      "2026-01-01T00:00:01Z world" rfl).2⟩
